import Mathlib

/-!
Shallow embedding of the LoRa gateway bridge core of
`woofdogtw/sylvia-iot-examples` (the `lora-ifroglab` network bridge and the
`dev-demo` device bridge), covering:

- the USB dongle protocol driver `lora-ifroglab/src/libs/lora_usb.rs`
  (CRC, ACK reading with split reads, per-command post-processing of the
  ACK payload, input clamping of `cmd03_set_values`);
- the network event loop `lora-ifroglab/src/libs/lora_task.rs`
  (`create_event_loop`, `parse_rx_data`, bounded history buffers,
  per-address downlink queues);
- the TX phase of the device event loop `dev-demo/src/libs/dev_task.rs`.

Bytes are modelled as `Nat` (all source values are `u8`, so no overflow
arises in the byte-level operations embedded here); fallible operations
return `Except`/`Option`; the serial port and the message broker are
modelled as explicit per-tick environments, and wire/broker effects are
recorded as an `Action` trace.
-/

namespace LoraBridge

/-- Error kinds used by the driver (`std::io::ErrorKind` values that appear
in `lora_usb.rs`: `TimedOut`, `InvalidData`, `InvalidInput`, `Other`). -/
inductive ErrKind where
  | timedOut
  | invalidData
  | invalidInput
  | other
deriving DecidableEq, Repr

/-- `fn crc(data: &[u8]) -> u8` of `lora_usb.rs`: scalar XOR of all input
bytes starting from 0. -/
def crc (data : List Nat) : Nat :=
  data.foldl (fun result d => result ^^^ d) 0

/-- `u32::from_be_bytes` applied to the first four bytes of a list
(missing bytes read as 0; callers always supply at least four). -/
def u32FromBeBytes (b : List Nat) : Nat :=
  b.getD 0 0 * 2 ^ 24 + b.getD 1 0 * 2 ^ 16 + b.getD 2 0 * 2 ^ 8 + b.getD 3 0

/-- `u32::to_be_bytes` for a value below `2^32`. -/
def u32ToBeBytes (n : Nat) : List Nat :=
  [n / 2 ^ 24 % 256, n / 2 ^ 16 % 256, n / 2 ^ 8 % 256, n % 256]

/-- `i16::from_be_bytes` applied to the first two bytes of a list. -/
def i16FromBeBytes (b : List Nat) : Int :=
  let n := b.getD 0 0 * 256 + b.getD 1 0
  if n < 32768 then (n : Int) else (n : Int) - 65536

/-- Lowercase hexadecimal digit for a value in `0..16`. -/
def hexDigit (n : Nat) : Char :=
  if n < 10 then Char.ofNat (48 + n) else Char.ofNat (87 + n)

/-- `hex::encode` of a byte slice: two lowercase hex digits per byte. -/
def hexEncode (bytes : List Nat) : String :=
  String.mk ((bytes.map (fun b => [hexDigit (b / 16), hexDigit (b % 16)])).flatten)

/-- Value of a single hexadecimal digit character, `none` when invalid. -/
def hexVal (c : Char) : Option Nat :=
  if '0' ≤ c ∧ c ≤ '9' then some (c.toNat - 48)
  else if 'a' ≤ c ∧ c ≤ 'f' then some (c.toNat - 87)
  else if 'A' ≤ c ∧ c ≤ 'F' then some (c.toNat - 55)
  else none

/-- Decode a list of hex-digit characters two at a time; `none` on an odd
number of digits or an invalid digit (as `hex::decode_to_slice`). -/
def hexDecodeChars : List Char → Option (List Nat)
  | [] => some []
  | [_] => none
  | c1 :: c2 :: rest =>
    match hexVal c1, hexVal c2, hexDecodeChars rest with
    | some h, some l, some tail => some ((16 * h + l) :: tail)
    | _, _, _ => none

/-- `hex::decode_to_slice` on a string (the destination slice in
`lora_task.rs` always has exactly half the string's length). -/
def hexDecode (s : String) : Option (List Nat) :=
  hexDecodeChars s.data

/-- `format!("\x7b:08x?\x7d", n)` for a `u32` value: eight lowercase hex
digits, zero padded. -/
def formatHex8 (n : Nat) : String :=
  String.mk [hexDigit (n / 16 ^ 7 % 16), hexDigit (n / 16 ^ 6 % 16),
    hexDigit (n / 16 ^ 5 % 16), hexDigit (n / 16 ^ 4 % 16),
    hexDigit (n / 16 ^ 3 % 16), hexDigit (n / 16 ^ 2 % 16),
    hexDigit (n / 16 % 16), hexDigit (n % 16)]

/-- Overwrite `buff[pos..pos + src.length]` with `src`
(`clone_from_slice` / `decode_to_slice` into a subslice). -/
def writeAt (buff : List Nat) (pos : Nat) (src : List Nat) : List Nat :=
  buff.take pos ++ src ++ buff.drop (pos + src.length)

/-- `struct ChipInfo` of `lora_usb.rs`. -/
structure ChipInfo where
  fw_ver : Nat
  chip_id : Nat
  node_id : Nat
deriving DecidableEq, Repr

/-- `struct ReadData` of `lora_usb.rs`. -/
structure ReadData where
  data : List Nat
  rssi : Int
deriving DecidableEq, Repr

/-- `struct RxData` of `lora_task.rs`. -/
structure RxData where
  node_id : Nat
  payload : List Nat
deriving DecidableEq, Repr

/-- `fn parse_rx_data(raw: &[u8])` of `lora_task.rs` (lines 273-284):
frames shorter than 8 bytes are `InvalidData`; otherwise the node id is the
big-endian `u32` of bytes 0..4 and the payload is bytes 8.. . -/
def parse_rx_data (raw : List Nat) : Except ErrKind RxData :=
  if raw.length < 8 then .error .invalidData
  else .ok { node_id := u32FromBeBytes (raw.take 4), payload := raw.drop 8 }

/-- The encoded frame layout used for TX in both bridges and described by
the spec's `FrameCodec`: `[node_id BE][4 zero bytes][payload]`. -/
def frameEncode (node_id : Nat) (payload : List Nat) : List Nat :=
  u32ToBeBytes node_id ++ [0, 0, 0, 0] ++ payload

/-- Post-ACK processing of `cmd00_chip_info` (`lora_usb.rs` lines 98-116):
`data` is the ACK payload returned by `read_ack`. -/
def cmd00_process (data : List Nat) : Except ErrKind ChipInfo :=
  if data.length < 2 then .error .invalidData
  else
    let node_id :=
      if 8 ≤ data.getD 1 0 ∧ 6 ≤ data.length then u32FromBeBytes ((data.drop 2).take 4)
      else 0
    .ok { fw_ver := data.getD 1 0, chip_id := data.getD 0 0, node_id := node_id }

/-- The command frame built by `cmd03_set_values` (`lora_usb.rs` lines
185-205), including the input clamping and the trailing CRC byte (the CRC
is computed over the whole 9-byte frame whose last byte is still 0). -/
def cmd03_frame (mode freq power : Nat) : List Nat :=
  let mode := if mode > 3 then 1 else mode
  let freq := if freq < 86000 ∨ freq > 102000 then 91500 else freq
  let power := if power > 15 then 0 else power
  let cmd : List Nat :=
    [0xC1, 0x03, 0x05, mode, freq / 2 ^ 16 % 256, freq / 2 ^ 8 % 256, freq % 256, power, 0]
  cmd.set 8 (crc cmd)

/-- Mode field of a `cmd03` frame (byte 3). -/
def cmd03FrameMode (frame : List Nat) : Nat := frame.getD 3 0

/-- Frequency field of a `cmd03` frame (bytes 4..7, big endian). -/
def cmd03FrameFreq (frame : List Nat) : Nat :=
  frame.getD 4 0 * 2 ^ 16 + frame.getD 5 0 * 2 ^ 8 + frame.getD 6 0

/-- Power field of a `cmd03` frame (byte 7). -/
def cmd03FramePower (frame : List Nat) : Nat := frame.getD 7 0

/-- Post-ACK processing of `cmd06_read_data` (`lora_usb.rs` lines 335-357):
empty payload means no frame; fewer than 5 bytes is `InvalidData`;
otherwise the last two payload bytes are the big-endian `i16` RSSI and the
rest is the data. -/
def cmd06_process (data : List Nat) : Except ErrKind (Option ReadData) :=
  if data.length = 0 then .ok none
  else if data.length < 5 then .error .invalidData
  else
    let pair :=
      if data.length > 2 then
        (data.take (data.length - 2), i16FromBeBytes (data.drop (data.length - 2)))
      else (data, (0 : Int))
    .ok (some { data := pair.1, rssi := pair.2 })

/-- Input validation of `cmd05_write_data` (`lora_usb.rs` lines 281-283)
combined with the environment-provided outcome of the serial exchange:
payloads outside `1..=16` bytes are `InvalidInput` before any port I/O. -/
def cmd05Result (data : List Nat) (writeOk : Bool) : Except ErrKind Unit :=
  if data.length < 1 ∨ data.length > 16 then .error .invalidInput
  else if writeOk then .ok () else .error .other

/-! ## The ACK reader (`read_ack`, `lora_usb.rs` lines 383-439)

The serial port is modelled as a list of pending byte chunks: each call to
`port.read(&mut self.buff[size..])` consumes the next chunk and copies it
into the 24-byte buffer starting at `size` (truncated to the remaining
buffer space), returning the number of bytes copied. An exhausted list
behaves as a read that returns 0 bytes. -/

/-- Size of the reused receive buffer (`buff: [u8; 24]`). -/
def BUFF_SIZE : Nat := 24

/-- Consume the next pending read chunk. -/
def nextRead (reads : List (List Nat)) : List Nat × List (List Nat) :=
  match reads with
  | [] => ([], [])
  | c :: rest => (c, rest)

/-- One `port.read(&mut buff[size..])`: copy the chunk into the buffer at
`size`, truncated to the free space, and return the new buffer and the
number of bytes read. -/
def portRead (buff : List Nat) (size : Nat) (chunk : List Nat) : List Nat × Nat :=
  let n := min chunk.length (buff.length - size)
  (writeAt buff size (chunk.take n), n)

/-- Final phase of `read_ack` (lines 422-438): CRC check over
`buff[..len+3]` against `buff[len+3]`, device-error reply check
(`buff[1] == 0xff`), and payload extraction `buff[3..len+3]`. -/
def readAckCrc (buff : List Nat) (len : Nat) : Except ErrKind (List Nat) :=
  if crc (buff.take (len + 3)) ≠ buff.getD (len + 3) 0 then .error .invalidData
  else if buff.getD 1 0 = 0xff then .error .other
  else .ok ((buff.drop 3).take len)

/-- Length-completion phase of `read_ack` (lines 400-420): extract
`len = buff[2]`, reject `len + 4 > 24`, and when fewer than `len + 4`
bytes have arrived perform one more read; if the total is then still
below `len`, time out, otherwise proceed to the CRC check. -/
def readAckPhase2 (buff : List Nat) (size : Nat) (reads : List (List Nat)) :
    Except ErrKind (List Nat) :=
  let len := buff.getD 2 0
  if len + 4 > buff.length then .error .invalidData
  else if size < len + 4 then
    let pr := portRead buff size (nextRead reads).1
    if size + pr.2 < len then .error .timedOut
    else readAckCrc pr.1 len
  else readAckCrc buff len

/-- `read_ack` (lines 383-439): initial read, second chance when fewer
than 3 bytes arrived, then the length/CRC phases. -/
def readAck (reads : List (List Nat)) : Except ErrKind (List Nat) :=
  let buff0 := List.replicate BUFF_SIZE 0
  let rest1 := (nextRead reads).2
  let pr1 := portRead buff0 0 (nextRead reads).1
  if pr1.2 < 3 then
    let pr2 := portRead pr1.1 pr1.2 (nextRead rest1).1
    if pr1.2 + pr2.2 < 3 then .error .timedOut
    else readAckPhase2 pr2.1 (pr1.2 + pr2.2) (nextRead rest1).2
  else readAckPhase2 pr1.1 pr1.2 rest1

/-! ## History buffers and downlink queue (`lora_task.rs`) -/

/-- `MAX_DATA` of `lora-ifroglab/src/libs/mod.rs`. -/
def MAX_DATA : Nat := 100

/-- One push into a `latest_uldata` / `latest_dldata` history buffer
(`lora_task.rs` lines 176-180 and 262-267): `push_back`, then `pop_front`
when the length exceeds `MAX_DATA`. -/
def pushHistory {α : Type} (hist : List α) (x : α) : List α :=
  let hist := hist ++ [x]
  if hist.length > MAX_DATA then hist.drop 1 else hist

/-- `struct UlDataExt` of `lora-ifroglab/src/libs/mod.rs`. -/
structure UlDataExt where
  rssi : Int
deriving DecidableEq, Repr

/-- `struct UlData` of `lora-ifroglab/src/libs/mod.rs` (the display record
pushed into the uplink history). -/
structure UlData where
  time : String
  network_addr : String
  data : String
  extension : UlDataExt
deriving DecidableEq, Repr

/-- `struct DlData` of `lora-ifroglab/src/libs/mod.rs`. -/
structure DlData where
  data_id : String
  time : String
  publish : String
  sent : String
  network_addr : String
  data : String
deriving DecidableEq, Repr

/-- `queue.pop_front()` on the per-address downlink queue map
(`lora_task.rs` lines 190-199): a missing key or an empty queue pops
nothing and leaves the map unchanged; otherwise the head is removed. -/
def queuePop (q : List (String × List DlData)) (addr : String) :
    Option DlData × List (String × List DlData) :=
  match q.lookup addr with
  | none => (none, q)
  | some [] => (none, q)
  | some (d :: rest) =>
    (some d, q.map (fun p => if p.1 = addr then (p.1, rest) else p))

/-! ## The network event loop (`create_event_loop`, `lora_task.rs`)

Wire and broker effects are recorded as a trace of `Action`s; the outcome
of every fallible effect is supplied by a per-tick environment `NetEnv`.
The `Option` result models the slice bound panic that
`&buff[..8 + data_len / 2]` raises when `8 + data_len / 2 > 16` (reachable
only through the oversize fall-through, see `netTx`): `none` aborts the
task. -/

/-- Observable effects of the event loops. -/
inductive Action where
  | openPort
  | cmd03 (mode freq power : Nat)
  | cmd05Write (data : List Nat)
  | cmd06
  | cmd07
  | sendUlData (network_addr data : String) (rssi : Int)
  | sendDlDataResult (data_id : String) (status : Int) (message : Option String)
deriving DecidableEq, Repr

/-- Per-tick environment: outcomes of the serial-port and broker effects,
plus the task options `freq`/`power` and the wall-clock strings. The
`restore*Ok` fields are the outcomes of the three `set_values(3, ..)`
RX-restore calls; the network loop only logs them, which is why they are
never read below. -/
structure NetEnv where
  freq : Nat
  power : Nat
  openOk : Bool
  connSetRxOk : Bool
  connCounterRes : Except ErrKind Nat
  counterRes : Except ErrKind Nat
  readRes : Except ErrKind (Option ReadData)
  sendUlOk : Bool
  sendResultOk : Bool
  setTxOk : Bool
  writeOk : Bool
  restoreAfterSetTxErrOk : Bool
  restoreAfterWriteErrOk : Bool
  restoreFinalOk : Bool
  nowUl : String
  nowSent : String
deriving Repr

/-- The shared queue resources of the network bridge
(`QueueRsc` minus the broker handle). -/
structure NetShared where
  latest_uldata : List UlData
  latest_dldata : List DlData
  queue_dldata : List (String × List DlData)
deriving DecidableEq, Repr

/-- Control phase of the network event loop: the connect loop of
`create_event_loop` lines 100-124, or the main loop of lines 127-269
carrying the last observed counter. -/
inductive NetPhase where
  | connecting
  | running (counter : Nat)
deriving DecidableEq, Repr

/-- TX section of a network tick (`lora_task.rs` lines 231-268), entered
with `buff` already holding the decoded payload (or all zeros on the
oversize fall-through): write the node id at bytes 0..4, switch to TX,
write `buff[..8 + data_len / 2]`, restore RX, and on a successful write
stamp `sent` and append the record to the downlink history. Restore
failures are only logged. `none` models the out-of-bounds slice. -/
def netTx (env : NetEnv) (counter : Nat) (sh : NetShared) (acts : List Action)
    (rx : RxData) (dl : DlData) (buff : List Nat) (dataLen : Nat) :
    Option (Nat × NetShared × List Action) :=
  let buff := writeAt buff 0 (u32ToBeBytes rx.node_id)
  let acts := acts ++ [Action.cmd03 2 env.freq env.power]
  if !env.setTxOk then
    some (counter, sh, acts ++ [Action.cmd03 3 env.freq env.power])
  else if 8 + dataLen / 2 ≤ 16 then
    let txData := buff.take (8 + dataLen / 2)
    let acts := acts ++ [Action.cmd05Write txData]
    match cmd05Result txData env.writeOk with
    | .error _ => some (counter, sh, acts ++ [Action.cmd03 3 env.freq env.power])
    | .ok _ =>
      let acts := acts ++ [Action.cmd03 3 env.freq env.power]
      let dl := { dl with sent := env.nowSent }
      some (counter, { sh with latest_dldata := pushHistory sh.latest_dldata dl }, acts)
  else none

/-- One iteration of the main loop of the network bridge
(`lora_task.rs` lines 127-269). Every branch of the Rust loop body ends in
`continue`; correspondingly every non-aborting result feeds the next
iteration of the same loop. -/
def netTick (env : NetEnv) (counter : Nat) (sh : NetShared) :
    Option (Nat × NetShared × List Action) :=
  match env.counterRes with
  | .error _ => some (counter, sh, [Action.cmd07])
  | .ok newCounter =>
    if counter = newCounter then some (counter, sh, [Action.cmd07])
    else
      match env.readRes with
      | .error _ => some (newCounter, sh, [Action.cmd07, Action.cmd06])
      | .ok none => some (newCounter, sh, [Action.cmd07, Action.cmd06])
      | .ok (some readData) =>
        match parse_rx_data readData.data with
        | .error _ => some (newCounter, sh, [Action.cmd07, Action.cmd06])
        | .ok rx =>
          let addr := formatHex8 rx.node_id
          let hexPayload := hexEncode rx.payload
          let apiUl : UlData :=
            { time := env.nowUl, network_addr := addr, data := hexPayload,
              extension := { rssi := readData.rssi } }
          let sh := { sh with latest_uldata := pushHistory sh.latest_uldata apiUl }
          let acts := [Action.cmd07, Action.cmd06,
            Action.sendUlData addr hexPayload readData.rssi]
          if !env.sendUlOk then some (newCounter, sh, acts)
          else
            match queuePop sh.queue_dldata addr with
            | (none, _) => some (newCounter, sh, acts)
            | (some dl, q2) =>
              let sh := { sh with queue_dldata := q2 }
              let dataLen := dl.data.length
              if dataLen > 16 then
                let acts := acts ++
                  [Action.sendDlDataResult dl.data_id 1 (some "exceed 16-byte hexadecimal")]
                if !env.sendResultOk then some (newCounter, sh, acts)
                else netTx env newCounter sh acts rx dl (List.replicate 16 0) dataLen
              else
                match hexDecode dl.data with
                | none => some (newCounter, sh, acts)
                | some bytes =>
                  netTx env newCounter sh acts rx dl
                    (writeAt (List.replicate 16 0) 8 bytes) dataLen

/-- One step of the network event-loop state machine: one iteration of the
connect loop (lines 100-124) or of the main loop (lines 127-269). -/
def netStep (env : NetEnv) (ph : NetPhase) (sh : NetShared) :
    Option (NetPhase × NetShared × List Action) :=
  match ph with
  | .connecting =>
    if !env.openOk then some (.connecting, sh, [Action.openPort])
    else if !env.connSetRxOk then
      some (.connecting, sh, [Action.openPort, Action.cmd03 3 env.freq env.power])
    else
      match env.connCounterRes with
      | .error _ =>
        some (.connecting, sh,
          [Action.openPort, Action.cmd03 3 env.freq env.power, Action.cmd07])
      | .ok c =>
        some (.running c, sh,
          [Action.openPort, Action.cmd03 3 env.freq env.power, Action.cmd07])
  | .running counter =>
    match netTick env counter sh with
    | none => none
    | some (c2, sh2, acts) => some (.running c2, sh2, acts)

/-! ## The TX phase of the device event loop (`dev_task.rs` lines 185-216) -/

/-- Environment for the device-loop TX phase. -/
structure DevTxEnv where
  freq : Nat
  power : Nat
  setTxOk : Bool
  writeOk : Bool
  restoreAfterSetTxErrOk : Bool
  restoreAfterWriteErrOk : Bool
  restoreFinalOk : Bool
deriving Repr

/-- TX phase of a device tick (`dev_task.rs` lines 185-216), entered with
`port_connected = true` and the 15-byte sensor frame `buff`: switch to TX,
write, restore RX. Unlike the network loop, every failing RX restore sets
`port_connected = false`; the returned `Bool` is the flag after the phase
(a `false` makes the next iteration reconnect, lines 105-108). -/
def devTxPhase (env : DevTxEnv) (buff : List Nat) : Bool × List Action :=
  let acts := [Action.cmd03 2 env.freq env.power]
  if !env.setTxOk then
    (env.restoreAfterSetTxErrOk, acts ++ [Action.cmd03 3 env.freq env.power])
  else
    let acts := acts ++ [Action.cmd05Write buff]
    match cmd05Result buff env.writeOk with
    | .error _ => (env.restoreAfterWriteErrOk, acts ++ [Action.cmd03 3 env.freq env.power])
    | .ok _ => (env.restoreFinalOk, acts ++ [Action.cmd03 3 env.freq env.power])

/-! ## Helper lemmas -/

/-- Big-endian `u32` encode/decode round-trip. -/
theorem u32FromBeBytes_toBe (n : Nat) (h : n < 2 ^ 32) :
    u32FromBeBytes (u32ToBeBytes n) = n := by
  have hr : u32FromBeBytes (u32ToBeBytes n) =
      n / 2 ^ 24 % 256 * 2 ^ 24 + n / 2 ^ 16 % 256 * 2 ^ 16 + n / 2 ^ 8 % 256 * 2 ^ 8 +
        n % 256 := rfl
  rw [hr]
  have e8 : (2 : Nat) ^ 8 = 256 := by norm_num
  have e16 : (2 : Nat) ^ 16 = 65536 := by norm_num
  have e24 : (2 : Nat) ^ 24 = 16777216 := by norm_num
  have e32 : (2 : Nat) ^ 32 = 4294967296 := by norm_num
  rw [e8, e16, e24] at *
  rw [e32] at h
  omega

/-- `u32FromBeBytes` only reads the first four bytes. -/
theorem u32FromBeBytes_take (l : List Nat) :
    u32FromBeBytes (l.take 4) = u32FromBeBytes l := by
  match l with
  | [] => rfl
  | [_] => rfl
  | [_, _] => rfl
  | [_, _, _] => rfl
  | _ :: _ :: _ :: _ :: _ => rfl

/-- The CRC phase of the ACK reader never reports a timeout. -/
theorem readAckCrc_ne_timedOut (buff : List Nat) (len : Nat) :
    readAckCrc buff len ≠ .error .timedOut := by
  unfold readAckCrc
  split
  · simp
  · split <;> simp

/-- Folding pushes into a history buffer keeps exactly the most recent
`MAX_DATA` elements of `acc ++ xs`. -/
theorem pushHistory_foldl {α : Type} (xs : List α) (acc : List α)
    (h : acc.length ≤ MAX_DATA) :
    List.foldl pushHistory acc xs =
      (acc ++ xs).drop (acc.length + xs.length - MAX_DATA) := by
  induction xs generalizing acc with
  | nil =>
    simp only [List.foldl_nil, List.append_nil, List.length_nil, Nat.add_zero]
    rw [Nat.sub_eq_zero_of_le h, List.drop_zero]
  | cons x t ih =>
    simp only [List.foldl_cons]
    by_cases hc : (acc ++ [x]).length > MAX_DATA
    · have hacc : acc.length = MAX_DATA := by
        simp only [List.length_append, List.length_singleton, List.length_cons, List.length_nil] at hc
        omega
      have hstep : pushHistory acc x = (acc ++ [x]).drop 1 := by
        unfold pushHistory
        rw [if_pos hc]
      have hdl : ((acc ++ [x]).drop 1).length = acc.length := by
        simp only [List.length_drop, List.length_append, List.length_singleton, List.length_cons, List.length_nil]
        omega
      rw [hstep, ih _ (by rw [hdl]; exact h)]
      have hidx1 : ((acc ++ [x]).drop 1).length + t.length - MAX_DATA = t.length := by
        simp only [List.length_drop, List.length_append, List.length_singleton, List.length_cons, List.length_nil]
        omega
      have hidx2 : acc.length + (x :: t).length - MAX_DATA = t.length + 1 := by
        simp only [List.length_cons, List.length_nil]
        omega
      rw [hidx1, hidx2]
      have h1 : (((acc ++ [x]) ++ t) : List α).drop 1 = (acc ++ [x]).drop 1 ++ t := by
        rw [List.drop_append_eq_append_drop]
        have h0 : 1 - (acc ++ [x]).length = 0 := by
          simp only [List.length_append, List.length_singleton, List.length_cons, List.length_nil]
          omega
        rw [h0, List.drop_zero]
      rw [← h1, List.drop_drop]
      rw [List.append_assoc, List.singleton_append, Nat.add_comm 1 t.length]
    · have hstep : pushHistory acc x = acc ++ [x] := by
        unfold pushHistory
        rw [if_neg hc]
      rw [hstep, ih _ (by omega)]
      have hidx : (acc ++ [x]).length + t.length - MAX_DATA
          = acc.length + (x :: t).length - MAX_DATA := by
        simp only [List.length_append, List.length_singleton, List.length_cons, List.length_nil]
        omega
      rw [hidx, List.append_assoc, List.singleton_append]

/-! ## Claim theorems -/

/-- Claim C1: the uplink and downlink history buffers never exceed
`MAX_DATA = 100` elements — a push into a buffer of at most 100 elements
leaves at most 100 elements — and after pushing any 150 records into an
empty history buffer the buffer holds exactly the last 100 pushed, in
insertion order, with the first 50 absent (`xs.drop 50`). Both
`latest_uldata` and `latest_dldata` are updated exclusively through
`pushHistory` (see `netTick` / `netTx`). -/
theorem history_overflow {α : Type} (hist : List α) (x : α) (xs : List α)
    (hh : hist.length ≤ MAX_DATA) (h150 : xs.length = 150) :
    (pushHistory hist x).length ≤ MAX_DATA ∧
    List.foldl pushHistory [] xs = xs.drop 50 ∧
    (List.foldl pushHistory [] xs).length = 100 := by
  have hfold : List.foldl pushHistory ([] : List α) xs = xs.drop 50 := by
    rw [pushHistory_foldl xs [] (by simp [MAX_DATA])]
    simp only [List.nil_append, List.length_nil, Nat.zero_add, h150]
    rfl
  refine ⟨?_, hfold, ?_⟩
  · simp only [pushHistory]
    split
    · simp only [List.length_drop, List.length_append, List.length_singleton]
      omega
    · rename_i hgt
      simp only [List.length_append, List.length_singleton] at *
      omega
  · rw [hfold, List.length_drop, h150]

/-- Claim C1 witness: pushing 150 records into an empty buffer. -/
theorem history_overflow_witness :
    (pushHistory ([] : List Nat) 0).length ≤ MAX_DATA ∧
    List.foldl pushHistory [] (List.replicate 150 0) = (List.replicate 150 0).drop 50 ∧
    (List.foldl pushHistory ([] : List Nat) (List.replicate 150 0)).length = 100 :=
  history_overflow [] 0 (List.replicate 150 0) (by simp [MAX_DATA]) (by simp)

/-- Claim C3: the scalar XOR CRC is an involution in the sense that
appending a byte sequence's CRC to the sequence yields CRC 0. -/
theorem crc_involution (bytes : List Nat) : crc (bytes ++ [crc bytes]) = 0 := by
  have h : crc (bytes ++ [crc bytes]) = crc bytes ^^^ crc bytes := by
    unfold crc
    rw [List.foldl_append]
    rfl
  rw [h, Nat.xor_self]

/-- Claim C4: frame encode/decode round-trips — for every `u32` node id
and non-empty payload, `parse_rx_data` on the encoded frame
`[node_id BE][4 zero bytes][payload]` returns exactly the node id and the
payload, and any raw input shorter than 8 bytes is an `InvalidData`
error. -/
theorem frame_codec_roundtrip (node_id : Nat) (payload : List Nat) (raw : List Nat)
    (h32 : node_id < 2 ^ 32) (hp : payload ≠ []) (hshort : raw.length < 8) :
    parse_rx_data (frameEncode node_id payload) =
      .ok { node_id := node_id, payload := payload } ∧
    parse_rx_data raw = .error .invalidData := by
  constructor
  · have hlen : (frameEncode node_id payload).length = 8 + payload.length := by
      simp only [frameEncode, u32ToBeBytes, List.length_append, List.length_cons,
        List.length_nil]
    have htake : (frameEncode node_id payload).take 4 = u32ToBeBytes node_id := rfl
    have hdrop : (frameEncode node_id payload).drop 8 = payload := rfl
    unfold parse_rx_data
    rw [hlen, if_neg (by omega), htake, hdrop, u32FromBeBytes_toBe node_id h32]
  · unfold parse_rx_data
    rw [if_pos hshort]

/-- Claim C4 witness: node id 42 with payload `[0xde, 0xad]`, and a
3-byte raw input. -/
theorem frame_codec_roundtrip_witness :
    parse_rx_data (frameEncode 42 [222, 173]) =
      .ok { node_id := 42, payload := [222, 173] } ∧
    parse_rx_data [1, 2, 3] = .error .invalidData :=
  frame_codec_roundtrip 42 [222, 173] [1, 2, 3] (by decide) (by decide) (by decide)

/-- Claim C5: `cmd03_set_values` silently clamps out-of-range arguments
before building the command frame: the frame's decoded mode is 1 when
`mode > 3`, its decoded frequency is 91500 when `freq` is outside
`[86000, 102000]`, and its decoded power is 0 when `power > 15` —
otherwise each decoded field equals the argument. As `cmd03_frame` is
total, the frame construction never fails on out-of-range inputs; in
particular `(mode, freq, power) = (7, 50000, 99)` yields a frame decoding
to `(1, 91500, 0)`. -/
theorem cmd03_clamp (mode freq power : Nat) :
    cmd03FrameMode (cmd03_frame mode freq power) = (if mode > 3 then 1 else mode) ∧
    cmd03FrameFreq (cmd03_frame mode freq power) =
      (if freq < 86000 ∨ freq > 102000 then 91500 else freq) ∧
    cmd03FramePower (cmd03_frame mode freq power) = (if power > 15 then 0 else power) := by
  refine ⟨rfl, ?_, rfl⟩
  have hfr : cmd03FrameFreq (cmd03_frame mode freq power) =
      (if freq < 86000 ∨ freq > 102000 then 91500 else freq) / 2 ^ 16 % 256 * 2 ^ 16 +
        (if freq < 86000 ∨ freq > 102000 then 91500 else freq) / 2 ^ 8 % 256 * 2 ^ 8 +
        (if freq < 86000 ∨ freq > 102000 then 91500 else freq) % 256 := rfl
  rw [hfr]
  by_cases hf : freq < 86000 ∨ freq > 102000
  · rw [if_pos hf]
    norm_num
  · rw [if_neg hf]
    have e8 : (2 : Nat) ^ 8 = 256 := by norm_num
    have e16 : (2 : Nat) ^ 16 = 65536 := by norm_num
    rw [e8, e16]
    omega

/-- Claim C2: in the ACK reader, when the bytes received so far are fewer
than `len + 4` (`len = buf[2]`), one additional read is performed (the
result depends on the next pending chunk) and the reader times out exactly
when the total received is then still below `len`; for every total with
`len ≤ total` (in particular every total in `len ≤ total < len + 4`) it
proceeds to the CRC check instead. -/
theorem readack_second_chance (buff : List Nat) (size : Nat) (reads : List (List Nat))
    (hb : buff.length = 24) (h3 : 3 ≤ size)
    (hlen : buff.getD 2 0 + 4 ≤ 24) (hlt : size < buff.getD 2 0 + 4) :
    ((readAckPhase2 buff size reads = .error .timedOut) ↔
      size + (portRead buff size (nextRead reads).1).2 < buff.getD 2 0) ∧
    (buff.getD 2 0 ≤ size + (portRead buff size (nextRead reads).1).2 →
      readAckPhase2 buff size reads =
        readAckCrc (portRead buff size (nextRead reads).1).1 (buff.getD 2 0)) := by
  have hshape : readAckPhase2 buff size reads =
      if size + (portRead buff size (nextRead reads).1).2 < buff.getD 2 0 then
        .error .timedOut
      else readAckCrc (portRead buff size (nextRead reads).1).1 (buff.getD 2 0) := by
    unfold readAckPhase2
    rw [hb, if_neg (by omega), if_pos hlt]
  rw [hshape]
  constructor
  · by_cases hc : size + (portRead buff size (nextRead reads).1).2 < buff.getD 2 0
    · rw [if_pos hc]
      exact iff_of_true rfl hc
    · rw [if_neg hc]
      simp only [hc, iff_false]
      exact readAckCrc_ne_timedOut _ _
  · intro hge
    rw [if_neg (by omega)]

/-- Claim C2 witness: a 24-byte buffer holding an ACK with `len = 6`,
5 bytes received so far, and a pending 4-byte chunk. -/
theorem readack_second_chance_witness :
    ((readAckPhase2 ([1, 2, 6, 9, 8, 7, 6, 5, 4, 3] ++ List.replicate 14 0) 5 [[4, 5, 6, 7]] =
        .error .timedOut) ↔
      5 + (portRead ([1, 2, 6, 9, 8, 7, 6, 5, 4, 3] ++ List.replicate 14 0) 5
          (nextRead [[4, 5, 6, 7]]).1).2 <
        (([1, 2, 6, 9, 8, 7, 6, 5, 4, 3] ++ List.replicate 14 0) : List Nat).getD 2 0) ∧
    ((([1, 2, 6, 9, 8, 7, 6, 5, 4, 3] ++ List.replicate 14 0) : List Nat).getD 2 0 ≤
        5 + (portRead ([1, 2, 6, 9, 8, 7, 6, 5, 4, 3] ++ List.replicate 14 0) 5
          (nextRead [[4, 5, 6, 7]]).1).2 →
      readAckPhase2 ([1, 2, 6, 9, 8, 7, 6, 5, 4, 3] ++ List.replicate 14 0) 5 [[4, 5, 6, 7]] =
        readAckCrc (portRead ([1, 2, 6, 9, 8, 7, 6, 5, 4, 3] ++ List.replicate 14 0) 5
          (nextRead [[4, 5, 6, 7]]).1).1
          ((([1, 2, 6, 9, 8, 7, 6, 5, 4, 3] ++ List.replicate 14 0) : List Nat).getD 2 0)) :=
  readack_second_chance ([1, 2, 6, 9, 8, 7, 6, 5, 4, 3] ++ List.replicate 14 0) 5
    [[4, 5, 6, 7]] (by decide) (by decide) (by decide) (by decide)

/-- Claim C6 counterexample: the ACK payload `[1, 2, 3]` is at least
3 bytes long, yet `cmd06_read_data` post-processing returns an
`InvalidData` error rather than a `ReadData` (the code requires at least
5 bytes, not 3). -/
theorem cmd06_three_bytes_counterexample :
    cmd06_process [1, 2, 3] = .error .invalidData ∧
    3 ≤ ([1, 2, 3] : List Nat).length := by
  exact ⟨rfl, by decide⟩

/-- Claim C6 as amended: for every cmd06 ACK payload of at least **5**
bytes (not 3), the operation returns a `ReadData` whose `rssi` is the
big-endian `i16` of the last two payload bytes and whose `data` is the
payload with those two bytes removed (`data ++ ` the dropped suffix
reassembles the payload), and the empty, 0-byte reply returns `none`. -/
theorem cmd06_rssi_split (data : List Nat) (h : 5 ≤ data.length) :
    cmd06_process data =
      .ok (some { data := data.take (data.length - 2),
                  rssi := i16FromBeBytes (data.drop (data.length - 2)) }) ∧
    data.take (data.length - 2) ++ data.drop (data.length - 2) = data ∧
    (data.take (data.length - 2)).length = data.length - 2 ∧
    cmd06_process [] = .ok none := by
  refine ⟨?_, List.take_append_drop _ _, ?_, rfl⟩
  · unfold cmd06_process
    rw [if_neg (by omega), if_neg (by omega)]
    simp only [if_pos (by omega : data.length > 2)]
  · rw [List.length_take]
    omega

/-- Claim C6 witness: the 6-byte payload `[1, 2, 3, 4, 5, 6]`. -/
theorem cmd06_rssi_split_witness :
    cmd06_process [1, 2, 3, 4, 5, 6] =
      .ok (some { data := [1, 2, 3, 4], rssi := i16FromBeBytes [5, 6] }) ∧
    ([1, 2, 3, 4] : List Nat) ++ [5, 6] = [1, 2, 3, 4, 5, 6] ∧
    (([1, 2, 3, 4, 5, 6] : List Nat).take 4).length = 4 ∧
    cmd06_process [] = .ok none :=
  cmd06_rssi_split [1, 2, 3, 4, 5, 6] (by decide)

/-- Claim C7 counterexample: an ACK whose length field is 8 (the payload
returned by `read_ack` has exactly `len` bytes, here 8 ≥ 8) and whose
payload is at least 6 bytes, where bytes 2..6 decode to 42 — yet
`cmd00_chip_info` returns `node_id = 0`, because the code gates the node
id on `data[1] >= 8`, the firmware-version byte, not on the ACK length
field (here `fw_ver = 2 < 8`). -/
theorem cmd00_len_field_counterexample :
    cmd00_process [1, 2, 0, 0, 0, 42, 0, 0] =
      .ok { fw_ver := 2, chip_id := 1, node_id := 0 } ∧
    u32FromBeBytes ((([1, 2, 0, 0, 0, 42, 0, 0] : List Nat).drop 2).take 4) = 42 ∧
    8 ≤ ([1, 2, 0, 0, 0, 42, 0, 0] : List Nat).length := by
  exact ⟨rfl, by decide, by decide⟩

/-- Claim C7 as amended: `cmd00_chip_info` returns `fw_ver` = payload
byte 1 and `chip_id` = payload byte 0, and the node id is the big-endian
`u32` of payload bytes 2..6 if and only if **the firmware-version byte
(payload byte 1) is at least 8** — not the ACK length field — and the
payload is at least 6 bytes long; otherwise the node id is 0. -/
theorem cmd00_fields (data : List Nat) (h : 2 ≤ data.length) :
    ∃ ci : ChipInfo, cmd00_process data = .ok ci ∧
      ci.fw_ver = data.getD 1 0 ∧ ci.chip_id = data.getD 0 0 ∧
      ((8 ≤ data.getD 1 0 ∧ 6 ≤ data.length) →
        ci.node_id = u32FromBeBytes (data.drop 2)) ∧
      (¬(8 ≤ data.getD 1 0 ∧ 6 ≤ data.length) → ci.node_id = 0) := by
  refine ⟨⟨data.getD 1 0, data.getD 0 0,
    if 8 ≤ data.getD 1 0 ∧ 6 ≤ data.length
      then u32FromBeBytes ((data.drop 2).take 4) else 0⟩, ?_, rfl, rfl, ?_, ?_⟩
  · unfold cmd00_process
    rw [if_neg (by omega)]
  · intro hc
    simp only [if_pos hc]
    exact u32FromBeBytes_take _
  · intro hc
    simp only [if_neg hc]

/-- Claim C7 witness: payload `[1, 9, 0, 0, 1, 44]` with firmware
version 9. -/
theorem cmd00_fields_witness :
    ∃ ci : ChipInfo, cmd00_process [1, 9, 0, 0, 1, 44] = .ok ci ∧
      ci.fw_ver = ([1, 9, 0, 0, 1, 44] : List Nat).getD 1 0 ∧
      ci.chip_id = ([1, 9, 0, 0, 1, 44] : List Nat).getD 0 0 ∧
      ((8 ≤ ([1, 9, 0, 0, 1, 44] : List Nat).getD 1 0 ∧
          6 ≤ ([1, 9, 0, 0, 1, 44] : List Nat).length) →
        ci.node_id = u32FromBeBytes (([1, 9, 0, 0, 1, 44] : List Nat).drop 2)) ∧
      (¬(8 ≤ ([1, 9, 0, 0, 1, 44] : List Nat).getD 1 0 ∧
          6 ≤ ([1, 9, 0, 0, 1, 44] : List Nat).length) → ci.node_id = 0) :=
  cmd00_fields [1, 9, 0, 0, 1, 44] (by decide)

/-- Claim C8 (code bug at the failing input): a popped downlink whose
hex payload has 17 characters (> 16) makes the loop send exactly one
`DlDataResult` with status 1 and message "exceed 16-byte hexadecimal" —
but because the oversize branch of `lora_task.rs` (lines 202-219) does not
`continue` after a *successful* result send, the loop falls through and
still issues `cmd03` with mode 2 (TX) and a `cmd05` write of a 16-byte
frame whose payload bytes are all zero, contrary to the claim (and spec
scenario S4) that no TX command is issued. -/
theorem oversize_downlink_still_transmits :
    netStep
      ({ freq := 91500, power := 5, openOk := true, connSetRxOk := true,
         connCounterRes := .ok 0, counterRes := .ok 2,
         readRes := .ok (some { data := [0, 0, 0, 42, 0, 0, 0, 0, 222, 173], rssi := -16 }),
         sendUlOk := true, sendResultOk := true, setTxOk := true, writeOk := true,
         restoreAfterSetTxErrOk := true, restoreAfterWriteErrOk := true,
         restoreFinalOk := true, nowUl := "TU", nowSent := "TS" } : NetEnv)
      (.running 1)
      ({ latest_uldata := [], latest_dldata := [],
         queue_dldata := [("0000002a",
           [{ data_id := "dl1", time := "t0", publish := "t1", sent := "",
              network_addr := "0000002a", data := "00112233445566778" }])] } : NetShared) =
      some (.running 2,
        { latest_uldata :=
            [{ time := "TU", network_addr := "0000002a", data := "dead",
               extension := { rssi := -16 } }],
          latest_dldata :=
            [{ data_id := "dl1", time := "t0", publish := "t1", sent := "TS",
               network_addr := "0000002a", data := "00112233445566778" }],
          queue_dldata := [("0000002a", [])] },
        [Action.cmd07, Action.cmd06, Action.sendUlData "0000002a" "dead" (-16),
         Action.sendDlDataResult "dl1" 1 (some "exceed 16-byte hexadecimal"),
         Action.cmd03 2 91500 5,
         Action.cmd05Write [0, 0, 0, 42, 0, 0, 0, 0, 0, 0, 0, 0, 0, 0, 0, 0],
         Action.cmd03 3 91500 5]) ∧
    ("00112233445566778" : String).length > 16 := by
  exact ⟨rfl, by decide⟩

/-- Claim C9 counterexample: in the network event loop a failing post-TX
`set_values(RX)` restoration (`restoreFinalOk := false` after a successful
`cmd05` write) does **not** transition back to CONNECTING: the step stays
in the RUNNING phase (and even stamps `sent` and appends the record to the
downlink history), because `lora_task.rs` lines 255-260 only log the
restore error. -/
theorem restore_failure_keeps_running :
    netStep
      ({ freq := 91500, power := 5, openOk := true, connSetRxOk := true,
         connCounterRes := .ok 0, counterRes := .ok 2,
         readRes := .ok (some { data := [0, 0, 0, 42, 0, 0, 0, 0, 222, 173], rssi := -16 }),
         sendUlOk := true, sendResultOk := true, setTxOk := true, writeOk := true,
         restoreAfterSetTxErrOk := true, restoreAfterWriteErrOk := true,
         restoreFinalOk := false, nowUl := "TU", nowSent := "TS" } : NetEnv)
      (.running 1)
      ({ latest_uldata := [], latest_dldata := [],
         queue_dldata := [("0000002a",
           [{ data_id := "dl9", time := "t0", publish := "t1", sent := "",
              network_addr := "0000002a", data := "dead" }])] } : NetShared) =
      some (.running 2,
        { latest_uldata :=
            [{ time := "TU", network_addr := "0000002a", data := "dead",
               extension := { rssi := -16 } }],
          latest_dldata :=
            [{ data_id := "dl9", time := "t0", publish := "t1", sent := "TS",
               network_addr := "0000002a", data := "dead" }],
          queue_dldata := [("0000002a", [])] },
        [Action.cmd07, Action.cmd06, Action.sendUlData "0000002a" "dead" (-16),
         Action.cmd03 2 91500 5,
         Action.cmd05Write [0, 0, 0, 42, 0, 0, 0, 0, 222, 173],
         Action.cmd03 3 91500 5]) ∧
    NetPhase.running 2 ≠ NetPhase.connecting := by
  exact ⟨rfl, by decide⟩

/-- Claim C9 as amended: the network event loop never leaves the RUNNING
phase on any tick outcome — counter/read errors, broker-send errors and
post-TX RX-restore failures all continue RUNNING — whereas in the device
event loop a post-TX RX-restore failure (after a successful write) clears
`port_connected`, which makes the next iteration reconnect. -/
theorem disconnect_policy (env : NetEnv) (c : Nat) (sh : NetShared)
    (denv : DevTxEnv) (buff : List Nat)
    (hTx : denv.setTxOk = true) (hW : denv.writeOk = true)
    (hR : denv.restoreFinalOk = false)
    (hb1 : 1 ≤ buff.length) (hb2 : buff.length ≤ 16) :
    (∀ r, netStep env (.running c) sh = some r →
      ∃ c2, r.1 = NetPhase.running c2) ∧
    (devTxPhase denv buff).1 = false := by
  constructor
  · intro r hr
    have hstep : netStep env (.running c) sh =
        match netTick env c sh with
        | none => none
        | some (c2, sh2, acts) => some (.running c2, sh2, acts) := rfl
    rw [hstep] at hr
    cases hnt : netTick env c sh with
    | none =>
      rw [hnt] at hr
      exact Option.noConfusion hr
    | some v =>
      obtain ⟨c2, sh2, acts⟩ := v
      rw [hnt] at hr
      have hr2 : (NetPhase.running c2, (sh2, acts)) = r := Option.some.inj hr
      exact ⟨c2, by rw [← hr2]⟩
  · have h05 : cmd05Result buff denv.writeOk = .ok () := by
      unfold cmd05Result
      rw [if_neg (by omega), hW, if_pos rfl]
    simp only [devTxPhase, hTx, h05, Bool.not_true, Bool.false_eq_true, if_false]
    exact hR

/-- Claim C9 witness: a concrete running-phase environment and a device
TX phase whose write succeeds and whose final RX restore fails. -/
theorem disconnect_policy_witness :
    (∀ r, netStep
        ({ freq := 91500, power := 5, openOk := true, connSetRxOk := true,
           connCounterRes := .ok 0, counterRes := .error .other, readRes := .ok none,
           sendUlOk := true, sendResultOk := true, setTxOk := true, writeOk := true,
           restoreAfterSetTxErrOk := true, restoreAfterWriteErrOk := true,
           restoreFinalOk := false, nowUl := "TU", nowSent := "TS" } : NetEnv)
        (.running 0)
        ({ latest_uldata := [], latest_dldata := [], queue_dldata := [] } : NetShared) =
        some r → ∃ c2, r.1 = NetPhase.running c2) ∧
    (devTxPhase
      ({ freq := 91500, power := 5, setTxOk := true, writeOk := true,
         restoreAfterSetTxErrOk := true, restoreAfterWriteErrOk := true,
         restoreFinalOk := false } : DevTxEnv) (List.replicate 15 0)).1 = false :=
  disconnect_policy _ 0 _ _ (List.replicate 15 0) rfl rfl rfl (by decide) (by decide)

/-- Claim C10 (code bug at the failing input): a record popped for an
oversize downlink (17 hex characters) whose failure result was sent
successfully is **not** permanently dropped: through the missing
`continue` of `lora_task.rs` lines 202-219 the loop proceeds to TX, and
when the `cmd05` write succeeds the record is stamped `sent` and appended
to the downlink history (while no longer being in the queue), contrary to
the claim that after an oversize rejection it appears in neither. The
"appended iff the write succeeds" part is what the fall-through preserves. -/
theorem oversize_downlink_reaches_history :
    netStep
      ({ freq := 91500, power := 5, openOk := true, connSetRxOk := true,
         connCounterRes := .ok 0, counterRes := .ok 2,
         readRes := .ok (some { data := [0, 0, 0, 42, 0, 0, 0, 0, 222, 173], rssi := -16 }),
         sendUlOk := true, sendResultOk := true, setTxOk := true, writeOk := true,
         restoreAfterSetTxErrOk := true, restoreAfterWriteErrOk := true,
         restoreFinalOk := true, nowUl := "TU", nowSent := "TS" } : NetEnv)
      (.running 1)
      ({ latest_uldata := [], latest_dldata := [],
         queue_dldata := [("0000002a",
           [{ data_id := "dl2", time := "t0", publish := "t1", sent := "",
              network_addr := "0000002a", data := "ffeeddccbbaa99887" }])] } : NetShared) =
      some (.running 2,
        { latest_uldata :=
            [{ time := "TU", network_addr := "0000002a", data := "dead",
               extension := { rssi := -16 } }],
          latest_dldata :=
            [{ data_id := "dl2", time := "t0", publish := "t1", sent := "TS",
               network_addr := "0000002a", data := "ffeeddccbbaa99887" }],
          queue_dldata := [("0000002a", [])] },
        [Action.cmd07, Action.cmd06, Action.sendUlData "0000002a" "dead" (-16),
         Action.sendDlDataResult "dl2" 1 (some "exceed 16-byte hexadecimal"),
         Action.cmd03 2 91500 5,
         Action.cmd05Write [0, 0, 0, 42, 0, 0, 0, 0, 0, 0, 0, 0, 0, 0, 0, 0],
         Action.cmd03 3 91500 5]) ∧
    ("ffeeddccbbaa99887" : String).length > 16 := by
  exact ⟨rfl, by decide⟩

end LoraBridge
